import Mathlib

/-!
Shallow embedding of `src/deep_research_openai.py`, a single-file Streamlit
application orchestrating a two-agent research pipeline.

Modelling choices:
- Python dictionaries returned by the crawl service become structures with
  `Option` fields: `none` models an absent key, `some` a present one.
- The external crawl service and the two agent invocations are parameters of
  the embedded functions, of type `... → Except String ...`: `Except.error e`
  models the call raising an exception whose message is `e`, `Except.ok`
  models a normal return.  The embedded functions are total Lean functions,
  so "does not raise" is captured by the fact that they always return a value
  of the stated result type.
- Streamlit side effects (spinners, `st.write`, `st.error`, markdown
  rendering, download button) are modelled only insofar as the claims need
  them: the top-level button handler is embedded as a function producing a
  record of what the run renders (error message, final report, download
  control).
-/

namespace DeepResearchApp

/-- Nested `data` record of the crawl-service response.  Both keys may be
absent, mirroring `result.get('data', {}).get('final_analysis', ...)` and
`.get('sources', [])` in the source.  The element type of `sources` is an
arbitrary type `α`: the adapter never inspects individual source records. -/
structure CrawlData (α : Type) where
  final_analysis : Option String
  sources : Option (List α)

/-- Crawl-service response: a dictionary that may or may not carry a `data`
key (source line 95: `if 'data' in result`). -/
structure CrawlResponse (α : Type) where
  data : Option (CrawlData α)

/-- Empty dictionary used as the default of `result.get('data', {})`. -/
def emptyCrawlData (α : Type) : CrawlData α :=
  { final_analysis := none, sources := none }

/-- Parameter dictionary built at source lines 77-81. -/
structure CrawlParams where
  maxDepth : Nat
  timeLimit : Nat
  maxUrls : Nat

/-- Result record returned by the `deep_research` adapter.  The Python
function returns a plain dict whose keys differ between the two branches;
absent keys are modelled as `none`. -/
structure ResearchResult (α : Type) where
  success : Bool
  final_analysis : Option String
  source_count : Option Nat
  sources : Option (List α)
  error : Option String

/-- Embedding of the `deep_research` tool (source lines 70-110).  The
external `fire_crawl_app.deep_research` call is the parameter
`fire_crawl_app`; `Except.error e` models the call (or anything else inside
the `try` block) raising an exception with message `e`.  On success the
adapter reads `final_analysis` (defaulting to the placeholder string) and
`sources` (defaulting to the empty list) from the nested `data` record and
returns a success record; on exception it returns a failure record carrying
the message.  The function is total: no exception propagates out. -/
def deep_research {α : Type}
    (fire_crawl_app : String → CrawlParams → Except String (CrawlResponse α))
    (query : String) (max_depth : Nat) (time_limit : Nat) (max_urls : Nat) :
    ResearchResult α :=
  match fire_crawl_app query
      { maxDepth := max_depth, timeLimit := time_limit, maxUrls := max_urls } with
  | Except.ok result =>
      let final_analysis :=
        ((result.data.getD (emptyCrawlData α)).final_analysis).getD
          "No final analysis available"
      let sources := ((result.data.getD (emptyCrawlData α)).sources).getD []
      { success := true
        final_analysis := some final_analysis
        source_count := some sources.length
        sources := some sources
        error := none }
  | Except.error e =>
      { success := false
        final_analysis := none
        source_count := none
        sources := none
        error := some e }

/-- Composite input built for the elaborative agent (source lines 166-172),
an f-string embedding the topic and the initial report under a fixed
template. -/
def elaboration_input (topic : String) (initial_report : String) : String :=
  " \n        RESEARCH TOPIC " ++ topic ++
  "\n        INITIAL RESEARCH REPORT:\n        " ++ initial_report ++
  "\n        Please enhance the report with additional info, examples and case studies\n        and deeper insights while maintaining its academic rigor and factual accuracy.\n"

/-- Embedding of `run_research_process` (source lines 154-176).  The two
awaited `Runner.run` invocations are the parameters `runAgent1` and
`runAgent2`, each mapping the input string to either the agent's final
textual output (`Except.ok`) or a raised exception (`Except.error`).  The
function has no exception handler: an error from either agent propagates as
the result. -/
def run_research_process (runAgent1 : String → Except String String)
    (runAgent2 : String → Except String String) (topic : String) :
    Except String String :=
  match runAgent1 topic with
  | Except.error e => Except.error e
  | Except.ok initial_report =>
      match runAgent2 (elaboration_input topic initial_report) with
      | Except.error e => Except.error e
      | Except.ok enhanced_report => Except.ok enhanced_report

/-- Python truthiness of a string: non-empty strings are truthy. -/
def truthy (s : String) : Bool :=
  !(s == "")

/-- Disabled condition of the trigger button (source line 178):
`disabled=not (google_api_key and firecrawl_api_key and research_topic)`. -/
def start_button_disabled (google_api_key : String) (firecrawl_api_key : String)
    (research_topic : String) : Bool :=
  !(truthy google_api_key && truthy firecrawl_api_key && truthy research_topic)

/-- The three branches of the button handler body (source lines 179-206). -/
inductive HandlerBranch where
  | warnMissingKey
  | warnMissingTopic
  | runPipeline

/-- Branch selection of the button handler (source lines 179-183):
`if not google_api_key and firecrawl_api_key: ... elif not research_topic:
... else: ...`.  Python precedence parses the first guard as
`(not google_api_key) and firecrawl_api_key`. -/
def button_handler_branch (google_api_key : String) (firecrawl_api_key : String)
    (research_topic : String) : HandlerBranch :=
  if (!truthy google_api_key) && truthy firecrawl_api_key then
    HandlerBranch.warnMissingKey
  else if !truthy research_topic then
    HandlerBranch.warnMissingTopic
  else
    HandlerBranch.runPipeline

/-- Embedding of Python `research_topic.replace(' ', '_')` (source line 202).
With a one-character pattern and a one-character replacement, `str.replace`
substitutes every occurrence, i.e. maps each character of the string. -/
def sanitized_topic (topic : String) : String :=
  String.mk (topic.data.map (fun c => if c = ' ' then '_' else c))

/-- Download filename built at source line 202:
`f"{research_topic.replace(' ', '_')}_report.md"`. -/
def download_file_name (topic : String) : String :=
  sanitized_topic topic ++ "_report.md"

/-- What one button-press run renders (source lines 184-206): an optional
error notification, an optional final report, and an optional download
control carrying (content, file name, MIME type). -/
structure RunRendering where
  error_message : Option String
  final_report : Option String
  download : Option (String × String × String)

/-- Embedding of the `try/except` body of the button handler (source lines
184-206).  `pipeline_result` models `asyncio.run(run_research_process(...))`:
`Except.ok` is a normal return, `Except.error e` an exception with message
`e` escaping the pipeline.  On success the final report is rendered and the
download control produced; on exception the handler catches it, renders
`st.error(f"An error occurred: {e}")`, and neither the report markdown nor
the download control is produced. -/
def handle_run (pipeline_result : Except String String) (research_topic : String) :
    RunRendering :=
  match pipeline_result with
  | Except.ok enhanced_report =>
      { error_message := none
        final_report := some enhanced_report
        download := some (enhanced_report, download_file_name research_topic,
          "text/markdown") }
  | Except.error e =>
      { error_message := some ("An error occurred: " ++ e)
        final_report := none
        download := none }

end DeepResearchApp

namespace DeepResearchApp

/-- C1: for every response returned by the crawl service call, the adapter
returns `success = true`, `final_analysis` equal to the response's
`data.final_analysis` (or the placeholder string when absent), `sources`
equal to the response's `data.sources` (or the empty list when absent), and
`source_count` equal to the length of that sources list. -/
theorem deep_research_success_shape {α : Type}
    (fire_crawl_app : String → CrawlParams → Except String (CrawlResponse α))
    (query : String) (max_depth time_limit max_urls : Nat)
    (resp : CrawlResponse α)
    (h : fire_crawl_app query
        { maxDepth := max_depth, timeLimit := time_limit, maxUrls := max_urls } =
      Except.ok resp) :
    deep_research fire_crawl_app query max_depth time_limit max_urls =
      { success := true
        final_analysis := some ((resp.data.bind
          (fun d => d.final_analysis)).getD "No final analysis available")
        source_count := some ((resp.data.bind (fun d => d.sources)).getD []).length
        sources := some ((resp.data.bind (fun d => d.sources)).getD [])
        error := none } := by
  unfold deep_research
  rw [h]
  cases hd : resp.data with
  | none => simp [hd, emptyCrawlData]
  | some d => simp [hd]

/-- Witness for C1 at the spec's concrete scenario: a response
`{data: {final_analysis: "X", sources: [10, 20, 30]}}` yields
`{success: true, final_analysis: "X", source_count: 3,
sources: [10, 20, 30]}`. -/
theorem deep_research_success_shape_witness :
    deep_research
        (fun (_ : String) (_ : CrawlParams) =>
          Except.ok
            ({ data := some { final_analysis := some "X", sources := some [10, 20, 30] } } :
              CrawlResponse Nat))
        "Latest trends in AI" 3 180 10 =
      { success := true
        final_analysis := some "X"
        source_count := some 3
        sources := some [10, 20, 30]
        error := none } := by
  have h := deep_research_success_shape
    (fun (_ : String) (_ : CrawlParams) =>
      Except.ok
        ({ data := some { final_analysis := some "X", sources := some [10, 20, 30] } } :
          CrawlResponse Nat))
    "Latest trends in AI" 3 180 10
    { data := some { final_analysis := some "X", sources := some [10, 20, 30] } }
    rfl
  simpa using h

/-- C2: a response with no `data` key at all yields `success = true`, the
placeholder analysis, `source_count = 0` and the empty sources list: the
adapter default-fills rather than failing. -/
theorem deep_research_defaults_on_empty {α : Type}
    (fire_crawl_app : String → CrawlParams → Except String (CrawlResponse α))
    (query : String) (max_depth time_limit max_urls : Nat)
    (h : fire_crawl_app query
        { maxDepth := max_depth, timeLimit := time_limit, maxUrls := max_urls } =
      Except.ok { data := none }) :
    deep_research fire_crawl_app query max_depth time_limit max_urls =
      { success := true
        final_analysis := some "No final analysis available"
        source_count := some 0
        sources := some []
        error := none } := by
  unfold deep_research
  rw [h]
  simp [emptyCrawlData]

/-- Witness for C2: a concrete stub returning the empty record. -/
theorem deep_research_defaults_on_empty_witness :
    deep_research
        (fun (_ : String) (_ : CrawlParams) =>
          Except.ok ({ data := none } : CrawlResponse Nat))
        "q" 3 180 10 =
      { success := true
        final_analysis := some "No final analysis available"
        source_count := some 0
        sources := some []
        error := none } :=
  deep_research_defaults_on_empty
    (fun (_ : String) (_ : CrawlParams) =>
      Except.ok ({ data := none } : CrawlResponse Nat))
    "q" 3 180 10 rfl

/-- C3: for every exception raised by the crawl service call, the adapter
returns `success = false` with `error` equal to the exception's message, and
does not propagate the exception (the embedded adapter is a total function
into `ResearchResult`, so every call returns a record). -/
theorem deep_research_catches_exception {α : Type}
    (fire_crawl_app : String → CrawlParams → Except String (CrawlResponse α))
    (query : String) (max_depth time_limit max_urls : Nat) (e : String)
    (h : fire_crawl_app query
        { maxDepth := max_depth, timeLimit := time_limit, maxUrls := max_urls } =
      Except.error e) :
    deep_research fire_crawl_app query max_depth time_limit max_urls =
      { success := false
        final_analysis := none
        source_count := none
        sources := none
        error := some e } := by
  unfold deep_research
  rw [h]

/-- Witness for C3: a stub that raises with message "boom". -/
theorem deep_research_catches_exception_witness :
    deep_research
        (fun (_ : String) (_ : CrawlParams) =>
          (Except.error "boom" : Except String (CrawlResponse Nat)))
        "q" 3 180 10 =
      { success := false
        final_analysis := none
        source_count := none
        sources := none
        error := some "boom" } :=
  deep_research_catches_exception
    (fun (_ : String) (_ : CrawlParams) =>
      (Except.error "boom" : Except String (CrawlResponse Nat)))
    "q" 3 180 10 "boom" rfl

/-- C4: every record the adapter returns has exactly one of `final_analysis`
and `error` present: the success branch carries `final_analysis` and no
`error` (with `success = true`), the exception branch carries `error` and no
`final_analysis` (with `success = false`). -/
theorem deep_research_exactly_one_of_analysis_error {α : Type}
    (fire_crawl_app : String → CrawlParams → Except String (CrawlResponse α))
    (query : String) (max_depth time_limit max_urls : Nat) :
    ((deep_research fire_crawl_app query max_depth time_limit max_urls).final_analysis.isSome = true ∧
      (deep_research fire_crawl_app query max_depth time_limit max_urls).error = none ∧
      (deep_research fire_crawl_app query max_depth time_limit max_urls).success = true) ∨
    ((deep_research fire_crawl_app query max_depth time_limit max_urls).final_analysis = none ∧
      (deep_research fire_crawl_app query max_depth time_limit max_urls).error.isSome = true ∧
      (deep_research fire_crawl_app query max_depth time_limit max_urls).success = false) := by
  unfold deep_research
  cases h : fire_crawl_app query
      { maxDepth := max_depth, timeLimit := time_limit, maxUrls := max_urls } with
  | ok result => left; simp
  | error e => right; simp

/-- C5: when agent 1 returns `initial_report`, the pipeline invokes agent 2
with exactly `elaboration_input topic initial_report` — a string containing
the literal topic and agent 1's output verbatim — and when agent 2 returns
`enhanced_report`, the pipeline returns exactly that output, unchanged. -/
theorem run_research_process_forwards
    (runAgent1 runAgent2 : String → Except String String)
    (topic initial_report enhanced_report : String)
    (h1 : runAgent1 topic = Except.ok initial_report)
    (h2 : runAgent2 (elaboration_input topic initial_report) =
      Except.ok enhanced_report) :
    run_research_process runAgent1 runAgent2 topic = Except.ok enhanced_report ∧
    (∃ before mid after, elaboration_input topic initial_report =
      before ++ topic ++ mid ++ initial_report ++ after) := by
  constructor
  · simp [run_research_process, h1, h2]
  · exact ⟨" \n        RESEARCH TOPIC ",
      "\n        INITIAL RESEARCH REPORT:\n        ",
      "\n        Please enhance the report with additional info, examples and case studies\n        and deeper insights while maintaining its academic rigor and factual accuracy.\n",
      rfl⟩

/-- Witness for C5 at the spec's end-to-end scenario: topic
"Latest trends in AI", agent 1 stubbed to "REPORT A", agent 2 stubbed to
"REPORT B"; the pipeline returns "REPORT B". -/
theorem run_research_process_forwards_witness :
    run_research_process (fun _ => Except.ok "REPORT A")
        (fun _ => Except.ok "REPORT B") "Latest trends in AI" =
      Except.ok "REPORT B" ∧
    (∃ before mid after, elaboration_input "Latest trends in AI" "REPORT A" =
      before ++ "Latest trends in AI" ++ mid ++ "REPORT A" ++ after) :=
  run_research_process_forwards (fun _ => Except.ok "REPORT A")
    (fun _ => Except.ok "REPORT B") "Latest trends in AI" "REPORT A" "REPORT B"
    rfl rfl

/-- C6: when the agent-1 invocation raises with message `e`, the pipeline's
result is that same exception for every possible agent 2 — agent 2 is never
invoked, and the exception propagates out of `run_research_process`
uncaught at that layer. -/
theorem run_research_process_agent1_error
    (runAgent1 : String → Except String String) (topic e : String)
    (h1 : runAgent1 topic = Except.error e) :
    ∀ runAgent2 : String → Except String String,
      run_research_process runAgent1 runAgent2 topic = Except.error e := by
  intro runAgent2
  unfold run_research_process
  rw [h1]

/-- Witness for C6: agent 1 stubbed to raise "agent1 failed"; whatever agent
2 would answer, the pipeline propagates the exception. -/
theorem run_research_process_agent1_error_witness :
    run_research_process (fun _ => Except.error "agent1 failed")
        (fun _ => Except.ok "REPORT B") "Latest trends in AI" =
      Except.error "agent1 failed" :=
  run_research_process_agent1_error (fun _ => Except.error "agent1 failed")
    "Latest trends in AI" "agent1 failed" rfl (fun _ => Except.ok "REPORT B")

/-- C7: the trigger button is enabled (its disabled flag is `false`) exactly
when the model secret, the crawl secret and the topic are all non-empty;
equivalently, it is disabled as soon as any one of them is empty. -/
theorem start_button_enabled_iff (google_api_key firecrawl_api_key research_topic : String) :
    start_button_disabled google_api_key firecrawl_api_key research_topic = false ↔
      (google_api_key ≠ "" ∧ firecrawl_api_key ≠ "" ∧ research_topic ≠ "") := by
  simp [start_button_disabled, truthy, and_assoc]

/-- C8: when the pipeline run raises with message `e`, the button handler
catches it (the handler is total), renders the error notification
`"An error occurred: " ++ e`, and produces neither the final-report
rendering nor the download control. -/
theorem handle_run_aborts_on_error
    (runAgent1 runAgent2 : String → Except String String) (topic e : String)
    (h : run_research_process runAgent1 runAgent2 topic = Except.error e) :
    handle_run (run_research_process runAgent1 runAgent2 topic) topic =
      { error_message := some ("An error occurred: " ++ e)
        final_report := none
        download := none } := by
  rw [h]
  rfl

/-- Witness for C8: agent 1 raises "model down"; the handler renders only
the error message. -/
theorem handle_run_aborts_on_error_witness :
    handle_run
        (run_research_process (fun _ => Except.error "model down")
          (fun _ => Except.ok "REPORT B") "AI in healthcare")
        "AI in healthcare" =
      { error_message := some ("An error occurred: " ++ "model down")
        final_report := none
        download := none } :=
  handle_run_aborts_on_error (fun _ => Except.error "model down")
    (fun _ => Except.ok "REPORT B") "AI in healthcare" "model down" rfl

/-- C9: for every topic, the download filename is the topic with every space
replaced by an underscore, followed by "_report.md" (stated at the level of
the character list), and in particular for "AI in healthcare" the filename
is exactly "AI_in_healthcare_report.md". -/
theorem download_file_name_sanitizes (topic : String) :
    (download_file_name topic).data =
      topic.data.map (fun c => if c = ' ' then '_' else c) ++
        ("_report.md").data ∧
    download_file_name "AI in healthcare" = "AI_in_healthcare_report.md" := by
  constructor
  · simp [download_file_name, sanitized_topic, String.data_append]
  · rfl

/-- C10: when the trigger button is enabled — both secrets and the topic are
non-empty — both warning guards inside the handler are false, so a click
always selects the pipeline-running branch. -/
theorem handler_warnings_unreachable_when_enabled
    (google_api_key firecrawl_api_key research_topic : String)
    (hg : google_api_key ≠ "") (hf : firecrawl_api_key ≠ "")
    (ht : research_topic ≠ "") :
    start_button_disabled google_api_key firecrawl_api_key research_topic = false ∧
    ((!truthy google_api_key) && truthy firecrawl_api_key) = false ∧
    (!truthy research_topic) = false ∧
    button_handler_branch google_api_key firecrawl_api_key research_topic =
      HandlerBranch.runPipeline := by
  refine ⟨?_, ?_, ?_, ?_⟩
  · simp [start_button_disabled, truthy, hg, hf, ht]
  · simp [truthy, hg]
  · simp [truthy, ht]
  · simp [button_handler_branch, truthy, hg, ht]

/-- Witness for C10: with concrete non-empty secrets and topic, the click
reaches the pipeline branch. -/
theorem handler_warnings_unreachable_when_enabled_witness :
    start_button_disabled "gkey" "fkey" "AI in healthcare" = false ∧
    ((!truthy "gkey") && truthy "fkey") = false ∧
    (!truthy "AI in healthcare") = false ∧
    button_handler_branch "gkey" "fkey" "AI in healthcare" =
      HandlerBranch.runPipeline :=
  handler_warnings_unreachable_when_enabled "gkey" "fkey" "AI in healthcare"
    (by decide) (by decide) (by decide)

end DeepResearchApp
